import Mathlib

/-!
Verification model of the create-nodality scaffolding generator
(src/bin/index.js).  The program is one synchronous pipeline; we model it as a
pure function from its inputs (the command-line arguments, the filesystem's
answer to the existence probe of the target path, and the exit codes of the
two subprocesses) to the ordered list of externally observable events it
performs together with the process exit code.
-/

namespace CreateNodality

/-- Externally observable events of one run: directory creation, file writes
(path given as segments below the working directory, content as the exact
string written), subprocess invocations, and console output on the standard
and error streams. -/
inductive Ev where
  | mkdir (path : List String)
  | write (path : List String) (content : String)
  | exec (cmd : String) (cwd : List String)
  | log (msg : String)
  | err (msg : String)
deriving Repr, DecidableEq

/-- Outcome of one run: the ordered event trace and the process exit code. -/
structure RunResult where
  trace : List Ev
  exitCode : Nat
deriving Repr, DecidableEq

/-- Whitespace test of JavaScript String.prototype.trim, on the ASCII range
(the embedded template literals only carry spaces and newlines at their
ends). -/
def jsWhitespace (c : Char) : Bool :=
  c == ' ' || c == '\t' || c == '\n' || c == '\r' || c == '\x0b' || c == '\x0c'

/-- Both-ends whitespace strip on character lists. -/
def trimChars (l : List Char) : List Char :=
  ((l.dropWhile jsWhitespace).reverse.dropWhile jsWhitespace).reverse

/-- Model of JavaScript String.prototype.trim, which the program applies to
each template literal before writing it. -/
def jsTrim (s : String) : String :=
  String.mk (trimChars s.data)

/-- Text of the index.html template literal before the interpolated project
name (src/bin/index.js lines 21 to 27). -/
def indexHtmlPre : String :=
  "\n<!DOCTYPE html>\n<html lang=\"en\">\n<head>\n  <meta charset=\"UTF-8\">\n  <meta name=\"viewport\" content=\"width=device-width, initial-scale=1.0\">\n  <title>"

/-- Text of the index.html template literal after the interpolated project
name (src/bin/index.js lines 27 to 45). -/
def indexHtmlPost : String :=
  "</title>\n\n  <!-- importmap to map \"nodality\" to node_modules path -->\n  <script type=\"importmap\">\n  \x7b\n    \"imports\": \x7b\n      \"nodality\": \"/node_modules/nodality/dist/index.esm.js\"\n    \x7d\n  \x7d\n  </script>\n</head>\n<body>\n  <div id=\"mount\"></div>\n\n  <!-- User app -->\n  <script type=\"module\" src=\"src/app.js\"></script>\n</body>\n</html>\n  "

/-- The index.html template literal with the project name interpolated into
the title element. -/
def indexHtml (projectName : String) : String :=
  indexHtmlPre ++ projectName ++ indexHtmlPost

/-- The app.js template literal (src/bin/index.js lines 49 to 68); it does
not mention the project name. -/
def appJs : String :=
  "\nimport \x7b Des \x7d from \"nodality\";           \n\nconst elements = [\n  \x7b type: \"h1\", text: \"Hello\" \x7d\n];\n\nconst nodes = [\n  \x7b op: \"blast\" \x7d\n];\n\nnew Des()\n  .nodes(nodes)\n  .add(elements)\n  .set(\x7b\n    mount: \"#mount\",\n    code: true,\n  \x7d);\n  "

/-- The webpack.config.js template literal (src/bin/index.js lines 71 to
101); it does not mention the project name. -/
def webpackConfig : String :=
  "\nimport path from \"path\";\nimport \x7b fileURLToPath \x7d from \"url\";\n\nconst __filename = fileURLToPath(import.meta.url);\nconst __dirname = path.dirname(__filename);\n\nexport default \x7b\n  mode: \"production\",\n  entry: \"nodality\",               // bundle Nodality only\n  output: \x7b\n    path: path.resolve(__dirname, \"dist\"),\n    filename: \"lib.bundle.js\",\n    library: \x7b type: \"module\" \x7d,   // ESM output\n    environment: \x7b module: true \x7d,\n    clean: true,\n    publicPath: \"/\",\n  \x7d,\n  experiments: \x7b outputModule: true \x7d,\n  module: \x7b\n    rules: [\n      \x7b\n        test: /\\.m?js$/,\n        exclude: /node_modules/,\n        use: \x7b loader: \"babel-loader\", options: \x7b presets: [\"@babel/preset-env\"] \x7d \x7d,\n      \x7d,\n    ],\n  \x7d,\n\x7d;\n  "

/-- Shape of the package.json object literal (src/bin/index.js lines 104 to
129); the mappings keep the object literal's key order. -/
structure Pkg where
  name : String
  version : String
  type : String
  scripts : List (String × String)
  dependencies : List (String × String)
  devDependencies : List (String × String)
deriving Repr, DecidableEq

/-- The package.json object built for a project name (src/bin/index.js lines
104 to 129). -/
def pkg (projectName : String) : Pkg :=
  ⟨projectName, "1.0.0", "module",
   [("build", "webpack --config webpack.config.js"),
    ("watch", "webpack --watch --config webpack.config.js"),
    ("start", "live-server . --port=4000 --watch=dist,src"),
    ("dev", "npm-run-all --parallel watch start")],
   [("nodality", "latest")],
   [("@babel/core", "^7.28.4"),
    ("@babel/preset-env", "^7.28.3"),
    ("babel-loader", "^9.2.1"),
    ("live-server", "^1.2.2"),
    ("npm-run-all", "^4.1.5"),
    ("serve", "^14.0.0"),
    ("webpack", "^5.101.3"),
    ("webpack-cli", "^5.1.4"),
    ("webpack-dev-server", "^5.2.2")]⟩

/-- Lowercase hexadecimal digit. -/
def hexDigit (n : Nat) : Char :=
  if n < 10 then Char.ofNat (48 + n) else Char.ofNat (87 + n)

/-- Escape of one character inside a JSON string, as JSON.stringify performs
it. -/
def jsonEscapeChar (c : Char) : List Char :=
  if c = '"' then ['\\', '"']
  else if c = '\\' then ['\\', '\\']
  else if c = '\x08' then ['\\', 'b']
  else if c = '\t' then ['\\', 't']
  else if c = '\n' then ['\\', 'n']
  else if c = '\x0c' then ['\\', 'f']
  else if c = '\r' then ['\\', 'r']
  else if c.toNat < 32 then
    ['\\', 'u', '0', '0', hexDigit (c.toNat / 16), hexDigit (c.toNat % 16)]
  else [c]

/-- JSON string literal for a string, as JSON.stringify renders it. -/
def jsonString (s : String) : String :=
  String.mk ('"' :: (s.data.map jsonEscapeChar).flatten ++ ['"'])

/-- Rendering of a string-to-string mapping as JSON.stringify(value, null, 2)
prints it one level inside the top-level object. -/
def jsonObj2 (entries : List (String × String)) : String :=
  if entries.isEmpty then "\x7b\x7d"
  else
    "\x7b\n" ++
      String.intercalate ",\n"
        (entries.map (fun kv => "    " ++ jsonString kv.1 ++ ": " ++ jsonString kv.2)) ++
      "\n  \x7d"

/-- JSON.stringify(pkg, null, 2): the exact text written to package.json
(src/bin/index.js line 129). -/
def stringifyPkg (p : Pkg) : String :=
  "\x7b\n  \"name\": " ++ jsonString p.name ++
  ",\n  \"version\": " ++ jsonString p.version ++
  ",\n  \"type\": " ++ jsonString p.type ++
  ",\n  \"scripts\": " ++ jsonObj2 p.scripts ++
  ",\n  \"dependencies\": " ++ jsonObj2 p.dependencies ++
  ",\n  \"devDependencies\": " ++ jsonObj2 p.devDependencies ++
  "\n\x7d"

/-- Console output printed after both subprocesses succeed (src/bin/index.js
lines 137 to 146), with the %s format substitution of console.log already
performed on the banner line. -/
def successBanner (projectName : String) : List Ev :=
  [Ev.log ("\n\x1b[38;5;37m\x1b[1mProject \"" ++ projectName ++ "\" is ready! 🎉\x1b[0m\n"),
   Ev.log "\nUsage:\n",
   Ev.log ("  cd " ++ projectName),
   Ev.log "  npm run build      # Rebuild library bundle",
   Ev.log "  npm run dev        # Start dev server with live reload",
   Ev.log "  npm start          # Serve project without watch"]

/-- The directory creations and file writes of the template-emission phase
(src/bin/index.js lines 16 to 129), in program order. -/
def emitEvents (projectName : String) : List Ev :=
  [Ev.mkdir [projectName],
   Ev.mkdir [projectName, "src"],
   Ev.write [projectName, "index.html"] (jsTrim (indexHtml projectName)),
   Ev.write [projectName, "src", "app.js"] (jsTrim appJs),
   Ev.write [projectName, "webpack.config.js"] (jsTrim webpackConfig),
   Ev.write [projectName, "package.json"] (stringifyPkg (pkg projectName))]

/-- The createProject function (src/bin/index.js lines 7 to 147).
targetExists is the filesystem's answer to existsSync(projectPath);
installExit and buildExit are the exit codes of the two execSync
subprocesses.  execSync throws on a non-zero exit, which terminates the node
process with exit code 1, so each non-zero subprocess exit ends the trace at
that subprocess. -/
def createProject (projectName : String) (targetExists : Bool)
    (installExit buildExit : Nat) : RunResult :=
  if targetExists then
    ⟨[Ev.err ("Folder " ++ projectName ++ " already exists.")], 1⟩
  else
    let afterInstall := emitEvents projectName ++
      [Ev.log "Installing dependencies...", Ev.exec "npm install" [projectName]]
    if installExit = 0 then
      let afterBuild := afterInstall ++
        [Ev.log "Building Nodality bundle...", Ev.exec "npm run build" [projectName]]
      if buildExit = 0 then ⟨afterBuild ++ successBanner projectName, 0⟩
      else ⟨afterBuild, 1⟩
    else ⟨afterInstall, 1⟩

/-- The whole program (src/bin/index.js lines 150 to 156): args is
process.argv.slice(2); the guard on args[0] fires when args is empty or its
first element is the empty string, since both are falsy. -/
def cli (args : List String) (targetExists : Bool)
    (installExit buildExit : Nat) : RunResult :=
  match args with
  | [] => ⟨[Ev.err "Usage: npm create nodality <project-name>"], 1⟩
  | a :: _ =>
    if a = "" then ⟨[Ev.err "Usage: npm create nodality <project-name>"], 1⟩
    else createProject a targetExists installExit buildExit

/-- File writes of a trace: path and content, in order. -/
def writesOf (t : List Ev) : List (List String × String) :=
  t.filterMap (fun e => match e with | Ev.write p c => some (p, c) | _ => none)

/-- Directories created by a trace, in order. -/
def mkdirsOf (t : List Ev) : List (List String) :=
  t.filterMap (fun e => match e with | Ev.mkdir p => some p | _ => none)

/-- Subprocess commands invoked by a trace, in order. -/
def execsOf (t : List Ev) : List String :=
  t.filterMap (fun e => match e with | Ev.exec c _ => some c | _ => none)

/-- Error-stream messages printed by a trace, in order. -/
def errsOf (t : List Ev) : List String :=
  t.filterMap (fun e => match e with | Ev.err m => some m | _ => none)

/-- Content written to a path by a trace (first write; the program writes
each path at most once). -/
def fileContent (t : List Ev) (p : List String) : Option String :=
  (writesOf t).findSome? (fun kv => if kv.1 = p then some kv.2 else none)

/-- Pipeline phase of an event: 0 for the emission phase (directory creation
and file writes), 1 for the install subprocess, 2 for the build subprocess;
console output carries no phase. -/
def phaseTag : Ev → Option Nat
  | Ev.mkdir _ => some 0
  | Ev.write _ _ => some 0
  | Ev.exec c _ => if c = "npm install" then some 1 else some 2
  | _ => none

/-- indexHtmlPre with its leading newline stripped: what is left of the text
before the title once the whole template is trimmed. -/
def indexHtmlPreTrimmed : String :=
  "<!DOCTYPE html>\n<html lang=\"en\">\n<head>\n  <meta charset=\"UTF-8\">\n  <meta name=\"viewport\" content=\"width=device-width, initial-scale=1.0\">\n  <title>"

/-- indexHtmlPost with its trailing newline and two spaces stripped: what is
left of the text after the title once the whole template is trimmed. -/
def indexHtmlPostTrimmed : String :=
  "</title>\n\n  <!-- importmap to map \"nodality\" to node_modules path -->\n  <script type=\"importmap\">\n  \x7b\n    \"imports\": \x7b\n      \"nodality\": \"/node_modules/nodality/dist/index.esm.js\"\n    \x7d\n  \x7d\n  </script>\n</head>\n<body>\n  <div id=\"mount\"></div>\n\n  <!-- User app -->\n  <script type=\"module\" src=\"src/app.js\"></script>\n</body>\n</html>"

/-- indexHtmlPreTrimmed without its final title-opening tag. -/
def htmlBeforeTitle : String :=
  "<!DOCTYPE html>\n<html lang=\"en\">\n<head>\n  <meta charset=\"UTF-8\">\n  <meta name=\"viewport\" content=\"width=device-width, initial-scale=1.0\">\n  "

/-- indexHtmlPostTrimmed without its leading title-closing tag. -/
def htmlAfterTitle : String :=
  "\n\n  <!-- importmap to map \"nodality\" to node_modules path -->\n  <script type=\"importmap\">\n  \x7b\n    \"imports\": \x7b\n      \"nodality\": \"/node_modules/nodality/dist/index.esm.js\"\n    \x7d\n  \x7d\n  </script>\n</head>\n<body>\n  <div id=\"mount\"></div>\n\n  <!-- User app -->\n  <script type=\"module\" src=\"src/app.js\"></script>\n</body>\n</html>"

/-- Postcondition of claim C1 for one run on a fresh target path: the two
directories and exactly the four files are created, and exit code 0 forces
both subprocess exits to be 0. -/
def C1Post (n : String) (rest : List String) (installExit buildExit : Nat) : Prop :=
  mkdirsOf (cli (n :: rest) false installExit buildExit).trace = [[n], [n, "src"]] ∧
  (writesOf (cli (n :: rest) false installExit buildExit).trace).map Prod.fst =
    [[n, "index.html"], [n, "src", "app.js"],
     [n, "webpack.config.js"], [n, "package.json"]] ∧
  ((cli (n :: rest) false installExit buildExit).exitCode = 0 →
    installExit = 0 ∧ buildExit = 0)

/-- Postcondition of claim C2: on an occupied target path the run is exactly
one error message naming the folder with exit code 1, so no write, directory
creation or subprocess happens; and a run on a fresh path creates directory n,
which is why an immediate second run finds the path occupied. -/
def C2Post (n : String) (rest : List String) (installExit buildExit : Nat) : Prop :=
  cli (n :: rest) true installExit buildExit =
    ⟨[Ev.err ("Folder " ++ n ++ " already exists.")], 1⟩ ∧
  writesOf (cli (n :: rest) true installExit buildExit).trace = [] ∧
  mkdirsOf (cli (n :: rest) true installExit buildExit).trace = [] ∧
  execsOf (cli (n :: rest) true installExit buildExit).trace = [] ∧
  [n] ∈ mkdirsOf (cli (n :: rest) false installExit buildExit).trace

/-- Postcondition of claim C4 for a successful run: exit code 0, the
package.json write is the serialization of pkg n, whose scripts are exactly
build, watch, start, dev, with one runtime dependency and nine caret-ranged
development dependencies. -/
def C4Post (n : String) (rest : List String) : Prop :=
  (cli (n :: rest) false 0 0).exitCode = 0 ∧
  fileContent (cli (n :: rest) false 0 0).trace [n, "package.json"] =
    some (stringifyPkg (pkg n)) ∧
  (pkg n).scripts.map Prod.fst = ["build", "watch", "start", "dev"] ∧
  (pkg n).dependencies.length = 1 ∧
  (pkg n).devDependencies.map Prod.fst =
    ["@babel/core", "@babel/preset-env", "babel-loader", "live-server",
     "npm-run-all", "serve", "webpack", "webpack-cli", "webpack-dev-server"] ∧
  ∀ kv ∈ (pkg n).devDependencies, kv.2.data.head? = some '^'

/-- Postcondition of the amended claim C5: the emission phase writes four
distinct file artifacts (not five). -/
def C5Post (n : String) (rest : List String) (installExit buildExit : Nat) : Prop :=
  (writesOf (cli (n :: rest) false installExit buildExit).trace).length = 4 ∧
  ((writesOf (cli (n :: rest) false installExit buildExit).trace).map Prod.fst).Pairwise
    (fun p q => p ≠ q)

/-- Postcondition of claim C6 when a subprocess fails: exit code 1, all four
files remain written in the trace (nothing deletes them: the event vocabulary
of the program has no removal), and neither subprocess is invoked more than
once. -/
def C6Post (n : String) (rest : List String) (installExit buildExit : Nat) : Prop :=
  (cli (n :: rest) false installExit buildExit).exitCode = 1 ∧
  (writesOf (cli (n :: rest) false installExit buildExit).trace).map Prod.fst =
    [[n, "index.html"], [n, "src", "app.js"],
     [n, "webpack.config.js"], [n, "package.json"]] ∧
  (execsOf (cli (n :: rest) false installExit buildExit).trace).count "npm install" ≤ 1 ∧
  (execsOf (cli (n :: rest) false installExit buildExit).trace).count "npm run build" ≤ 1

/-- Postcondition of claim C7: on an occupied path nothing is written or
created; on a fresh path the phases of the trace are monotone (all emission
before the install subprocess before the build subprocess), and the
subprocess sequence is install alone or install then build. -/
def C7Post (n : String) (rest : List String) (installExit buildExit : Nat) : Prop :=
  writesOf (cli (n :: rest) true installExit buildExit).trace = [] ∧
  mkdirsOf (cli (n :: rest) true installExit buildExit).trace = [] ∧
  List.Chain' (fun a b => a ≤ b)
    ((cli (n :: rest) false installExit buildExit).trace.filterMap phaseTag) ∧
  execsOf (cli (n :: rest) false installExit buildExit).trace ∈
    [["npm install"], ["npm install", "npm run build"]]

/-- Postcondition of claim C8 for a successful run: exit code 0, the
package.json content is the serialization of pkg n whose name field is n, and
the index.html content carries the title element with n interpolated. -/
def C8Post (n : String) (rest : List String) : Prop :=
  (cli (n :: rest) false 0 0).exitCode = 0 ∧
  fileContent (cli (n :: rest) false 0 0).trace [n, "package.json"] =
    some (stringifyPkg (pkg n)) ∧
  (pkg n).name = n ∧
  fileContent (cli (n :: rest) false 0 0).trace [n, "index.html"] =
    some (indexHtmlPreTrimmed ++ n ++ indexHtmlPostTrimmed) ∧
  ∃ a c : String,
    fileContent (cli (n :: rest) false 0 0).trace [n, "index.html"] =
      some (a ++ ("<title>" ++ n ++ "</title>") ++ c)

/-- Postcondition of claim C9 across two runs with possibly different names:
the src/app.js and webpack.config.js contents are the fixed constants, hence
identical across the runs. -/
def C9Post (n₁ n₂ : String) (r₁ r₂ : List String) (i₁ b₁ i₂ b₂ : Nat) : Prop :=
  fileContent (cli (n₁ :: r₁) false i₁ b₁).trace [n₁, "src", "app.js"] =
    some (jsTrim appJs) ∧
  fileContent (cli (n₁ :: r₁) false i₁ b₁).trace [n₁, "webpack.config.js"] =
    some (jsTrim webpackConfig) ∧
  fileContent (cli (n₁ :: r₁) false i₁ b₁).trace [n₁, "src", "app.js"] =
    fileContent (cli (n₂ :: r₂) false i₂ b₂).trace [n₂, "src", "app.js"] ∧
  fileContent (cli (n₁ :: r₁) false i₁ b₁).trace [n₁, "webpack.config.js"] =
    fileContent (cli (n₂ :: r₂) false i₂ b₂).trace [n₂, "webpack.config.js"]

/-- Postcondition of claim C10: the written files of a fresh-path run do not
depend on the extra arguments or the subprocess exit codes, and are the fixed
function of the project name alone. -/
def C10Post (n : String) (r r' : List String) (i b i' b' : Nat) : Prop :=
  writesOf (cli (n :: r) false i b).trace =
    writesOf (cli (n :: r') false i' b').trace ∧
  writesOf (cli (n :: r) false i b).trace =
    [([n, "index.html"], jsTrim (indexHtml n)),
     ([n, "src", "app.js"], jsTrim appJs),
     ([n, "webpack.config.js"], jsTrim webpackConfig),
     ([n, "package.json"], stringifyPkg (pkg n))]

/-- C1: for every non-empty project name whose target path does not exist,
the run creates directory n with subdirectory src and exactly the four files
index.html, src/app.js, webpack.config.js and package.json, and exits 0 only
if both the install and the build subprocess exit 0. -/
theorem claim1 (n : String) (rest : List String) (installExit buildExit : Nat)
    (hn : n ≠ "") : C1Post n rest installExit buildExit := by
  unfold C1Post
  by_cases hi : installExit = 0 <;> by_cases hb : buildExit = 0 <;>
    simp [cli, hn, createProject, emitEvents, successBanner, mkdirsOf, writesOf, hi, hb]

/-- Witness for claim1 at the concrete name demo. -/
theorem claim1_witness : ("demo" : String) ≠ "" ∧ C1Post "demo" [] 0 0 :=
  ⟨by decide, claim1 "demo" [] 0 0 (by decide)⟩

/-- C2: when the target path already exists the run prints exactly one error
naming the conflicting folder and exits 1, with no write, directory creation
or subprocess; and a fresh-path run creates directory n, which is why an
immediate second run with the same name fails instead of overwriting. -/
theorem claim2 (n : String) (rest : List String) (installExit buildExit : Nat)
    (hn : n ≠ "") : C2Post n rest installExit buildExit := by
  unfold C2Post
  by_cases hi : installExit = 0 <;> by_cases hb : buildExit = 0 <;>
    simp [cli, hn, createProject, emitEvents, successBanner, mkdirsOf, writesOf,
      execsOf, hi, hb]

/-- Witness for claim2 at the concrete name demo. -/
theorem claim2_witness : ("demo" : String) ≠ "" ∧ C2Post "demo" [] 0 0 :=
  ⟨by decide, claim2 "demo" [] 0 0 (by decide)⟩

/-- C3: with zero positional arguments the process prints the usage message,
exits 1, and performs no filesystem write, directory creation or subprocess
invocation. -/
theorem claim3 (targetExists : Bool) (installExit buildExit : Nat) :
    cli [] targetExists installExit buildExit =
      ⟨[Ev.err "Usage: npm create nodality <project-name>"], 1⟩ ∧
    writesOf (cli [] targetExists installExit buildExit).trace = [] ∧
    mkdirsOf (cli [] targetExists installExit buildExit).trace = [] ∧
    execsOf (cli [] targetExists installExit buildExit).trace = [] := by
  simp [cli, writesOf, mkdirsOf, execsOf]

/-- C4: in a successful run the generated manifest has exactly the four
scripts build, watch, start, dev, exactly one runtime dependency, and nine
fixed development dependencies each with a caret-range version. -/
theorem claim4 (n : String) (rest : List String) (hn : n ≠ "") : C4Post n rest := by
  unfold C4Post
  simp [cli, hn, createProject, emitEvents, successBanner, writesOf, fileContent,
    pkg]

/-- Witness for claim4 at the concrete name demo. -/
theorem claim4_witness : ("demo" : String) ≠ "" ∧ C4Post "demo" [] :=
  ⟨by decide, claim4 "demo" [] (by decide)⟩

/-- C5 as stated is false on the code: the generation phase of the run with
name demo emits four file artifacts, not five. -/
theorem claim5_counterexample :
    ¬ (writesOf (cli ["demo"] false 0 0).trace).length = 5 := by
  simp [cli, createProject, emitEvents, successBanner, writesOf]

/-- C5 amended: the generation phase embeds four templates and emits four
distinct file artifacts into the project tree. -/
theorem claim5 (n : String) (rest : List String) (installExit buildExit : Nat)
    (hn : n ≠ "") : C5Post n rest installExit buildExit := by
  unfold C5Post
  by_cases hi : installExit = 0 <;> by_cases hb : buildExit = 0 <;>
    simp [cli, hn, createProject, emitEvents, successBanner, writesOf, hi, hb]

/-- Witness for claim5 at the concrete name demo. -/
theorem claim5_witness : ("demo" : String) ≠ "" ∧ C5Post "demo" [] 0 0 :=
  ⟨by decide, claim5 "demo" [] 0 0 (by decide)⟩

/-- C6: when the install or the build subprocess fails, the run exits 1,
every previously written file stays in the trace with no removal, and
neither subprocess is invoked more than once. -/
theorem claim6 (n : String) (rest : List String) (installExit buildExit : Nat)
    (hn : n ≠ "") (hfail : installExit ≠ 0 ∨ buildExit ≠ 0) :
    C6Post n rest installExit buildExit := by
  unfold C6Post
  by_cases hi : installExit = 0 <;> by_cases hb : buildExit = 0
  · exact absurd hfail (by simp [hi, hb])
  all_goals
    simp [cli, hn, createProject, emitEvents, successBanner, writesOf, execsOf,
      hi, hb]

/-- Witness for claim6 at the concrete name demo with a failing install. -/
theorem claim6_witness :
    (("demo" : String) ≠ "" ∧ ((1 : Nat) ≠ 0 ∨ (0 : Nat) ≠ 0)) ∧ C6Post "demo" [] 1 0 :=
  ⟨⟨by decide, by decide⟩, claim6 "demo" [] 1 0 (by decide) (by decide)⟩

/-- C7: the pipeline order is fixed: an occupied path yields no write or
directory creation, the phases of a fresh-path trace are monotone (emission,
then install, then build), and the subprocess sequence is install alone or
install followed by build. -/
theorem claim7 (n : String) (rest : List String) (installExit buildExit : Nat)
    (hn : n ≠ "") : C7Post n rest installExit buildExit := by
  unfold C7Post
  by_cases hi : installExit = 0 <;> by_cases hb : buildExit = 0 <;>
    simp [cli, hn, createProject, emitEvents, successBanner, writesOf, mkdirsOf,
      execsOf, phaseTag, hi, hb]

/-- Witness for claim7 at the concrete name demo. -/
theorem claim7_witness : ("demo" : String) ≠ "" ∧ C7Post "demo" [] 0 0 :=
  ⟨by decide, claim7 "demo" [] 0 0 (by decide)⟩

/-- Trimming a concatenation whose fixed ends contain non-whitespace strips
characters only within the fixed ends, never within the middle. -/
theorem trimChars_fixed_ends (a m b : List Char)
    (ha : (a.dropWhile jsWhitespace).isEmpty = false)
    (hb : (b.reverse.dropWhile jsWhitespace).isEmpty = false) :
    trimChars (a ++ m ++ b) =
      a.dropWhile jsWhitespace ++ m ++ (b.reverse.dropWhile jsWhitespace).reverse := by
  simp [trimChars, List.dropWhile_append, ha, hb]

set_option maxRecDepth 20000 in
/-- The trimmed index.html document for project name n keeps n in place
between the fixed trimmed halves of the template. -/
theorem jsTrim_indexHtml (n : String) :
    jsTrim (indexHtml n) = indexHtmlPreTrimmed ++ n ++ indexHtmlPostTrimmed := by
  apply String.ext
  have h := trimChars_fixed_ends indexHtmlPre.data n.data indexHtmlPost.data
    (by decide) (by decide)
  have hpre : indexHtmlPre.data.dropWhile jsWhitespace = indexHtmlPreTrimmed.data := by
    decide
  have hpost : (indexHtmlPost.data.reverse.dropWhile jsWhitespace).reverse =
      indexHtmlPostTrimmed.data := by decide
  show trimChars (indexHtml n).data = _
  rw [show (indexHtml n).data = indexHtmlPre.data ++ n.data ++ indexHtmlPost.data from by
    simp [indexHtml, String.data_append]]
  rw [h, hpre, hpost]
  simp [String.data_append]

set_option maxRecDepth 20000 in
/-- C8: in a successful run the package.json content is the serialization of
pkg n, whose name field is n, and the index.html content is the trimmed
template with n interpolated, so its title element contains n. -/
theorem claim8 (n : String) (rest : List String) (hn : n ≠ "") : C8Post n rest := by
  unfold C8Post
  have h1 : indexHtmlPreTrimmed.data = htmlBeforeTitle.data ++ ("<title>" : String).data := by
    decide
  have h2 : indexHtmlPostTrimmed.data = ("</title>" : String).data ++ htmlAfterTitle.data := by
    decide
  refine ⟨?_, ?_, rfl, ?_, htmlBeforeTitle, htmlAfterTitle, ?_⟩
  · simp [cli, hn, createProject, emitEvents, successBanner]
  · simp [cli, hn, createProject, emitEvents, successBanner, writesOf, fileContent]
  · simp [cli, hn, createProject, emitEvents, successBanner, writesOf, fileContent,
      jsTrim_indexHtml]
  · have heq : jsTrim (indexHtml n) =
        htmlBeforeTitle ++ ("<title>" ++ n ++ "</title>") ++ htmlAfterTitle := by
      rw [jsTrim_indexHtml]
      apply String.ext
      simp [String.data_append, h1, h2]
    simp [cli, hn, createProject, emitEvents, successBanner, writesOf, fileContent, heq]

/-- Witness for claim8 at the concrete name demo. -/
theorem claim8_witness : ("demo" : String) ≠ "" ∧ C8Post "demo" [] :=
  ⟨by decide, claim8 "demo" [] (by decide)⟩

/-- C9: the contents written to src/app.js and webpack.config.js are the
fixed constants jsTrim appJs and jsTrim webpackConfig, hence byte-for-byte
identical across runs with any two project names. -/
theorem claim9 (n₁ n₂ : String) (r₁ r₂ : List String) (i₁ b₁ i₂ b₂ : Nat)
    (h₁ : n₁ ≠ "") (h₂ : n₂ ≠ "") : C9Post n₁ n₂ r₁ r₂ i₁ b₁ i₂ b₂ := by
  unfold C9Post
  by_cases hi1 : i₁ = 0 <;> by_cases hb1 : b₁ = 0 <;>
    by_cases hi2 : i₂ = 0 <;> by_cases hb2 : b₂ = 0 <;>
      simp [cli, h₁, h₂, createProject, emitEvents, successBanner, writesOf,
        fileContent, hi1, hb1, hi2, hb2]

/-- Witness for claim9 at the concrete names demo and other. -/
theorem claim9_witness :
    (("demo" : String) ≠ "" ∧ ("other" : String) ≠ "") ∧
      C9Post "demo" "other" [] [] 0 0 0 0 :=
  ⟨⟨by decide, by decide⟩, claim9 "demo" "other" [] [] 0 0 0 0 (by decide) (by decide)⟩

/-- C10: for a fixed project name the four written file contents are
byte-for-byte the same across runs, independent of the extra arguments and
the subprocess exit codes: they are the fixed function of the name alone. -/
theorem claim10 (n : String) (r r' : List String) (i b i' b' : Nat) (hn : n ≠ "") :
    C10Post n r r' i b i' b' := by
  unfold C10Post
  by_cases hi : i = 0 <;> by_cases hb : b = 0 <;>
    by_cases hi' : i' = 0 <;> by_cases hb' : b' = 0 <;>
      simp [cli, hn, createProject, emitEvents, successBanner, writesOf,
        hi, hb, hi', hb']

/-- Witness for claim10 at the concrete name demo. -/
theorem claim10_witness : ("demo" : String) ≠ "" ∧ C10Post "demo" [] [] 0 0 1 1 :=
  ⟨by decide, claim10 "demo" [] [] 0 0 1 1 (by decide)⟩

end CreateNodality
